import Mathlib

/-!
# Environment resource and environment data source of the DevCycle Terraform provider

A shallow embedding of `internal/provider/environment_resource.go` and
`internal/provider/environment_data_source.go`.

* Go records become structures, pointers become `Option`, slices become lists.
* The management client is a record of functions from the call arguments to the
  returned triple; every handler also returns the list of calls it issued.
* A handler is a function from the request and the response it is handed to the
  response it leaves behind; `none` is a nil-pointer panic.
* The plugin framework and the management SDK are external to the repository:
  their types are reproduced only as far as the handlers use them. `Get` and `State.Set`
  convert between a value of the schema and the tagged record and fail with a
  "Value Conversion Error" when the record does not fit the schema; logging is left out.
-/

namespace provider

/-! ## Go runtime and plugin-framework values used by the handlers -/

/-- Go `error` value, carried by the text its `Error()` method returns. -/
structure GoError where
  Error : String
  deriving DecidableEq, Repr

/-- The part of `*http.Response` the handlers look at. -/
structure HttpResponse where
  StatusCode : Int
  deriving DecidableEq, Repr

/-- Go `fmt.Sprintf(lead + "%s", err)`: the `%s` verb prints the `Error()` text of a non-nil
error and the placeholder `%!s(<nil>)` for a nil one. -/
def sprintfErr (lead : String) (err : Option GoError) : String :=
  match err with
  | some e => lead ++ e.Error
  | none => lead ++ "%!s(<nil>)"

/-- Framework value `types.String`: a string with its unknown and null flags. -/
structure TypesString where
  Unknown : Bool := false
  Null : Bool := false
  Value : String := ""
  deriving DecidableEq, Repr

/-- Severity of a framework diagnostic. -/
inductive Severity where
  | Error
  | Warning
  deriving DecidableEq, Repr

/-- Framework diagnostic: severity, summary (title) and detail. -/
structure Diagnostic where
  Severity : Severity
  Summary : String
  Detail : String
  deriving DecidableEq, Repr

/-- Framework `diag.Diagnostics`. -/
abbrev Diagnostics := List Diagnostic

/-- Framework `Diagnostics.Append`: adds the given diagnostics in order, skipping one already
contained. -/
def Diagnostics.Append (diags : Diagnostics) (inp : Diagnostics) : Diagnostics :=
  inp.foldl (fun acc d => if d ∈ acc then acc else acc ++ [d]) diags

/-- Framework `Diagnostics.AddError(summary, detail)`: appends an error diagnostic. -/
def Diagnostics.AddError (diags : Diagnostics) (summary detail : String) : Diagnostics :=
  Diagnostics.Append diags [{ Severity := Severity.Error, Summary := summary, Detail := detail }]

/-- Framework `Diagnostics.HasError()`. -/
def Diagnostics.HasError (diags : Diagnostics) : Bool :=
  diags.any (fun d => decide (d.Severity = Severity.Error))

/-- A config, plan or state as it converts into a record of type `α` that fits its schema:
the record and the diagnostics of the conversion. Whether the record of a handler fits the
schema is checked by `tfsdkGet`. -/
structure Decoded (α : Type) where
  data : α
  diags : Diagnostics

/-! ## Management SDK shapes (`devcyclem`) -/

/-- SDK `devcyclem.ApiKey`, as far as the provider reads it. -/
structure ApiKey where
  Key : String
  deriving DecidableEq, Repr

/-- The per-platform key lists of an environment response. -/
structure EnvironmentSdkKeys where
  Mobile : List ApiKey := []
  Server : List ApiKey := []
  Client : List ApiKey := []
  deriving DecidableEq, Repr

/-- The settings object of an environment response. -/
structure EnvironmentSettings where
  AppIconURI : String := ""
  deriving DecidableEq, Repr

/-- The environment returned by create, find-one and update: the fields the handlers read.
`SdkKeys` and `Settings` are pointers, nil when the answer leaves them out. -/
structure Environment where
  Id : String := ""
  Key : String := ""
  Name : String := ""
  Project : String := ""
  Description : String := ""
  Color : String := ""
  Type_ : String := ""
  SdkKeys : Option EnvironmentSdkKeys := none
  Settings : Option EnvironmentSettings := none
  deriving DecidableEq, Repr

/-- SDK `devcyclem.AllOfCreateEnvironmentDtoSettings`. -/
structure AllOfCreateEnvironmentDtoSettings where
  AppIconURI : String
  deriving DecidableEq, Repr

/-- SDK `devcyclem.AllOfUpdateEnvironmentDtoSettings`. -/
structure AllOfUpdateEnvironmentDtoSettings where
  AppIconURI : String
  deriving DecidableEq, Repr

/-- SDK `devcyclem.CreateEnvironmentDto`; `Settings` is a pointer. -/
structure CreateEnvironmentDto where
  Name : String
  Key : String
  Description : String
  Color : String
  Type_ : String
  Settings : Option AllOfCreateEnvironmentDtoSettings
  deriving DecidableEq, Repr

/-- SDK `devcyclem.UpdateEnvironmentDto`; `Settings` is a pointer. -/
structure UpdateEnvironmentDto where
  Name : String
  Key : String
  Description : String
  Color : String
  Type_ : String
  Settings : Option AllOfUpdateEnvironmentDtoSettings
  deriving DecidableEq, Repr

/-- The triple `(environment, httpResponse, err)` returned by create, find-one and update. -/
structure EnvironmentResult where
  environment : Environment
  httpResponse : Option HttpResponse
  err : Option GoError
  deriving DecidableEq, Repr

/-- The pair `(httpResponse, err)` returned by remove. -/
structure RemoveResult where
  httpResponse : Option HttpResponse
  err : Option GoError
  deriving DecidableEq, Repr

/-- SDK `MgmtClient.EnvironmentsApi`: each endpoint as a function of its arguments. -/
structure EnvironmentsApi where
  EnvironmentsControllerCreate : CreateEnvironmentDto → String → EnvironmentResult
  EnvironmentsControllerFindOne : String → String → EnvironmentResult
  EnvironmentsControllerUpdate : UpdateEnvironmentDto → String → String → EnvironmentResult
  EnvironmentsControllerRemove : String → String → RemoveResult

/-- One call issued to the management API, with its arguments in call order. -/
inductive ApiCall where
  | EnvironmentsControllerCreate (body : CreateEnvironmentDto) (project : String)
  | EnvironmentsControllerFindOne (key : String) (project : String)
  | EnvironmentsControllerUpdate (body : UpdateEnvironmentDto) (key : String) (project : String)
  | EnvironmentsControllerRemove (key : String) (project : String)
  deriving DecidableEq, Repr

/-- The handlers' test `err != nil || httpResponse.StatusCode != 200`: the right operand is
evaluated only for a nil error, and dereferencing a nil response panics (`none`). -/
def clientFailed (err : Option GoError) (httpResponse : Option HttpResponse) : Option Bool :=
  match err with
  | some _ => some true
  | none =>
    match httpResponse with
    | none => none
    | some r => some (decide (r.StatusCode ≠ 200))

/-! ## Schemas -/

/-- Framework attribute types used by the two schemas. -/
inductive AttrType where
  | StringType
  | ListType (ElemType : AttrType)
  deriving DecidableEq, Repr

/-- Framework plan modifiers used by the two schemas. -/
inductive PlanModifier where
  | UseStateForUnknown
  | RequiresReplace
  deriving DecidableEq, Repr

/-- An attribute inside `tfsdk.ListNestedAttributes`. -/
structure NestedAttribute where
  Typ : Option AttrType := none
  Computed : Bool := false
  deriving DecidableEq, Repr

/-- Framework `tfsdk.Attribute`; a field left out of the Go literal has its zero value. `Typ`
is the Go field `Type`, `Attributes` the list-nested attribute map. -/
structure Attribute where
  MarkdownDescription : String := ""
  Required : Bool := false
  Computed : Bool := false
  Typ : Option AttrType := none
  Attributes : Option (List (String × NestedAttribute)) := none
  PlanModifiers : List PlanModifier := []
  deriving DecidableEq, Repr

/-- Framework `tfsdk.Schema`; the attribute map is listed in source order. -/
structure Schema where
  MarkdownDescription : String
  Attributes : List (String × Attribute)
  deriving DecidableEq, Repr

/-- Source `environmentResourceType.GetSchema`. -/
def environmentResourceType.GetSchema : Schema :=
  { MarkdownDescription := "Example resource"
    Attributes := [
      ("project_id",
        { MarkdownDescription := "Project id or key of the project to which the environment belongs"
          Required := true
          Typ := some AttrType.StringType }),
      ("name",
        { MarkdownDescription := "Environment Name"
          Required := true
          Typ := some AttrType.StringType }),
      ("key",
        { MarkdownDescription := "Environment Key"
          Required := true
          Typ := some AttrType.StringType }),
      ("description",
        { MarkdownDescription := "Environment Description"
          Required := true
          Typ := some AttrType.StringType }),
      ("color",
        { MarkdownDescription := "Environment Color in Hex with leading #"
          Required := true
          Typ := some AttrType.StringType }),
      ("type",
        { MarkdownDescription := "Environment Type"
          Required := true
          Typ := some AttrType.StringType }),
      ("appiconuri",
        { MarkdownDescription := "Environment App Icon URI"
          Required := true
          Typ := some AttrType.StringType }),
      ("id",
        { Computed := true
          MarkdownDescription := "Environment Id"
          PlanModifiers := [PlanModifier.UseStateForUnknown]
          Typ := some AttrType.StringType }),
      ("sdkKeys",
        { Computed := true
          MarkdownDescription := "SDK Keys for the environment"
          Attributes := some [
            ("type", { Typ := some AttrType.StringType, Computed := true }),
            ("key", { Typ := some AttrType.StringType, Computed := true })] })] }

/-- Source `environmentDataSourceType.GetSchema`. -/
def environmentDataSourceType.GetSchema : Schema :=
  { MarkdownDescription := "Example data source"
    Attributes := [
      ("project_id",
        { MarkdownDescription := "Project id or key of the project to which the environment belongs"
          Computed := true
          Typ := some AttrType.StringType }),
      ("project_key",
        { MarkdownDescription := "Project key of the project to which the environment belongs"
          Required := true
          Typ := some AttrType.StringType }),
      ("name",
        { MarkdownDescription := "Environment Name"
          Computed := true
          Typ := some AttrType.StringType }),
      ("key",
        { MarkdownDescription := "Environment Key"
          Required := true
          Typ := some AttrType.StringType }),
      ("description",
        { MarkdownDescription := "Environment Description"
          Computed := true
          Typ := some AttrType.StringType }),
      ("color",
        { MarkdownDescription := "Environment Color in Hex with leading #"
          Computed := true
          Typ := some AttrType.StringType }),
      ("type",
        { MarkdownDescription := "Environment Type"
          Computed := true
          Typ := some AttrType.StringType }),
      ("id",
        { Computed := true
          MarkdownDescription := "Environment Id"
          PlanModifiers := [PlanModifier.RequiresReplace]
          Typ := some AttrType.StringType }),
      ("sdk_keys",
        { Computed := true
          MarkdownDescription := "SDK Keys for the environment"
          Typ := some (AttrType.ListType AttrType.StringType) })] }

/-- The top-level attribute names of a schema. -/
def Schema.attributeNames (s : Schema) : List String :=
  s.Attributes.map Prod.fst

/-- The attribute declared under a name, when there is one. -/
def Schema.attribute (s : Schema) (name : String) : Option Attribute :=
  (s.Attributes.find? (fun p => decide (p.1 = name))).map Prod.snd

/-- Whether the attribute under a name carries the requires-replace plan modifier. -/
def Schema.requiresReplace (s : Schema) (name : String) : Bool :=
  match s.attribute name with
  | some a => decide (PlanModifier.RequiresReplace ∈ a.PlanModifiers)
  | none => false

/-! ## Records -/

/-- Source `environmentResourceDataSettings`. -/
structure environmentResourceDataSettings where
  AppIconURI : TypesString := {}
  deriving DecidableEq, Repr

/-- Source `environmentResourceData`; `Typ` is the Go field `Type`. -/
structure environmentResourceData where
  Id : TypesString := {}
  Key : TypesString := {}
  Name : TypesString := {}
  Description : TypesString := {}
  Color : TypesString := {}
  Typ : TypesString := {}
  Settings : environmentResourceDataSettings := {}
  ProjectId : TypesString := {}
  SDKKeys : List String := []
  deriving DecidableEq, Repr

/-- Source `environmentDataSourceData`; `Typ` is the Go field `Type`. -/
structure environmentDataSourceData where
  Id : TypesString := {}
  Key : TypesString := {}
  Name : TypesString := {}
  Description : TypesString := {}
  Color : TypesString := {}
  Typ : TypesString := {}
  ProjectId : TypesString := {}
  ProjectKey : TypesString := {}
  SDKKeys : List String := []
  deriving DecidableEq, Repr

/-- Source `sdkKeyConvert`: the loop appends each key string to the result, in order. -/
def sdkKeyConvert (keys : List ApiKey) : List String :=
  keys.foldl (fun sdkKeys sdkKey => sdkKeys ++ [sdkKey.Key]) []

/-- Source `environmentResourceDataSettings.toCreateSDK`. -/
def environmentResourceDataSettings.toCreateSDK (s : environmentResourceDataSettings) :
    Option AllOfCreateEnvironmentDtoSettings :=
  some { AppIconURI := s.AppIconURI.Value }

/-- Source `environmentResourceDataSettings.toUpdateSDK`. -/
def environmentResourceDataSettings.toUpdateSDK (s : environmentResourceDataSettings) :
    Option AllOfUpdateEnvironmentDtoSettings :=
  some { AppIconURI := s.AppIconURI.Value }

/-! ## Requests and responses -/

/-- Framework `tfsdk.CreateResourceRequest`: the config, given by what it converts into when
the record fits the schema. -/
structure CreateResourceRequest where
  Config : Decoded environmentResourceData

/-- Framework `tfsdk.ReadResourceRequest`: the prior state, given by what it converts into
when the record fits the schema. -/
structure ReadResourceRequest where
  State : Decoded environmentResourceData

/-- Framework `tfsdk.UpdateResourceRequest`: the plan and the prior state, each given by what
it converts into when the record fits the schema. -/
structure UpdateResourceRequest where
  Plan : Decoded environmentResourceData
  State : Decoded environmentResourceData

/-- Framework `tfsdk.DeleteResourceRequest`: the prior state, given by what it converts into
when the record fits the schema. -/
structure DeleteResourceRequest where
  State : Decoded environmentResourceData

/-- Framework `tfsdk.ReadDataSourceRequest`: the config, given by what it converts into when
the record fits the schema. -/
structure ReadDataSourceRequest where
  Config : Decoded environmentDataSourceData

/-- The response of a resource handler: the state it holds (`none` when there is no
resource) and the diagnostics. The handler is handed the prior state in it;
`State.RemoveResource` clears it. -/
structure ResourceResponse where
  State : Option environmentResourceData
  Diagnostics : Diagnostics
  deriving DecidableEq, Repr

/-- The response of the data-source handler. -/
structure DataSourceResponse where
  State : Option environmentDataSourceData
  Diagnostics : Diagnostics
  deriving DecidableEq, Repr

/-! ## Record declarations and their `tfsdk` tags -/

/-- The Go type of a tagged record field: `types.String`, `[]string`, or a struct given by
its own tagged fields of type `types.String`. -/
inductive GoFieldType where
  | TypesString
  | StringSlice
  | Struct (fields : List String)
  deriving DecidableEq, Repr

/-- The `tfsdk` tags of `environmentResourceDataSettings`, in declaration order. -/
def environmentResourceDataSettings.tfsdkTags : List String :=
  ["appiconuri"]

/-- The tagged fields of `environmentResourceData`, in declaration order: the `tfsdk` tag and
the Go type of the field. -/
def environmentResourceData.tfsdkFields : List (String × GoFieldType) :=
  [("id", GoFieldType.TypesString),
   ("key", GoFieldType.TypesString),
   ("name", GoFieldType.TypesString),
   ("description", GoFieldType.TypesString),
   ("color", GoFieldType.TypesString),
   ("type", GoFieldType.TypesString),
   ("settings", GoFieldType.Struct environmentResourceDataSettings.tfsdkTags),
   ("project_id", GoFieldType.TypesString),
   ("sdkKeys", GoFieldType.StringSlice)]

/-- The tagged fields of `environmentDataSourceData`, in declaration order. -/
def environmentDataSourceData.tfsdkFields : List (String × GoFieldType) :=
  [("id", GoFieldType.TypesString),
   ("key", GoFieldType.TypesString),
   ("name", GoFieldType.TypesString),
   ("description", GoFieldType.TypesString),
   ("color", GoFieldType.TypesString),
   ("type", GoFieldType.TypesString),
   ("project_id", GoFieldType.TypesString),
   ("project_key", GoFieldType.TypesString),
   ("sdk_keys", GoFieldType.StringSlice)]

/-- The Go type of the field carrying a tag, when there is one. -/
def fieldWithTag (fields : List (String × GoFieldType)) (tag : String) : Option GoFieldType :=
  (fields.find? (fun p => decide (p.1 = tag))).map Prod.snd

/-- Whether a field has the shape an attribute declares: a `types.String` field for a string
attribute, a `[]string` field for a list-of-strings attribute. An attribute of any other
declaration (nested attributes, no type) is matched by neither of the two. -/
def GoFieldType.fits (t : GoFieldType) (a : Attribute) : Bool :=
  match t, a.Typ, a.Attributes with
  | GoFieldType.TypesString, some AttrType.StringType, none => true
  | GoFieldType.StringSlice, some (AttrType.ListType AttrType.StringType), none => true
  | _, _, _ => false

/-- Whether a record declaration and a schema agree: every tag names an attribute whose
declaration the field fits, and every attribute is named by a tag. -/
def recordAgreesWithSchema (fields : List (String × GoFieldType)) (s : Schema) : Bool :=
  fields.all (fun f =>
    match s.attribute f.1 with
    | some a => f.2.fits a
    | none => false) &&
  s.attributeNames.all (fun n => decide (n ∈ fields.map Prod.fst))

/-- Whether a `tfsdk` tag is a valid field name for the framework: a lowercase letter followed
by lowercase letters, digits and underscores. -/
def validFieldName (tag : String) : Bool :=
  match tag.toList with
  | [] => false
  | c :: cs => c.isLower && cs.all (fun x => x.isLower || x.isDigit || x == '_')

/-- Whether the framework can convert between a value of the schema and the record: every
tag is a valid field name and the record agrees with the schema. -/
def recordConvertible (fields : List (String × GoFieldType)) (s : Schema) : Bool :=
  fields.all (fun f => validFieldName f.1) && recordAgreesWithSchema fields s

/-- The diagnostic the framework returns when a value and a record do not convert into each
other. The detail text of the framework, which names the offending field, is not
reproduced. -/
def valueConversionError : Diagnostic :=
  { Severity := Severity.Error, Summary := "Value Conversion Error"
    Detail := "An unexpected error was encountered trying to convert value." }

/-- Framework `Get(ctx, &data)` on a config, plan or state of schema `s`, into a record with
the tagged fields `fields`: when the record fits the schema the record and diagnostics of the
conversion, otherwise the record untouched (`zero`) and a conversion error. -/
def tfsdkGet {α : Type} (fields : List (String × GoFieldType)) (s : Schema) (zero : α)
    (value : Decoded α) : Decoded α :=
  if recordConvertible fields s then value
  else { data := zero, diags := [valueConversionError] }

/-- Framework `State.Set(ctx, &data)` on a state of schema `s`: when the record fits the
schema the state holds the record, otherwise the state stays as it was and a conversion error
is returned. -/
def tfsdkSet {α : Type} (fields : List (String × GoFieldType)) (s : Schema) (data : α)
    (state : Option α) : Option α × Diagnostics :=
  if recordConvertible fields s then (some data, [])
  else (state, [valueConversionError])

/-! ## Handlers -/

/-- Source `environmentResource.Create`. -/
def environmentResource.Create (api : EnvironmentsApi) (req : CreateResourceRequest)
    (resp : ResourceResponse) : Option (ResourceResponse × List ApiCall) :=
  let decoded := tfsdkGet environmentResourceData.tfsdkFields environmentResourceType.GetSchema
    {} req.Config
  let data := decoded.data
  let diags := decoded.diags
  let resp := { resp with Diagnostics := Diagnostics.Append resp.Diagnostics diags }
  if Diagnostics.HasError resp.Diagnostics then
    some (resp, [])
  else
    let body : CreateEnvironmentDto :=
      { Name := data.Name.Value
        Key := data.Key.Value
        Description := data.Description.Value
        Color := data.Color.Value
        Type_ := data.Typ.Value
        Settings := data.Settings.toCreateSDK }
    let result := api.EnvironmentsControllerCreate body data.ProjectId.Value
    let calls := [ApiCall.EnvironmentsControllerCreate body data.ProjectId.Value]
    let environment := result.environment
    match clientFailed result.err result.httpResponse with
    | none => none
    | some true =>
      some ({ resp with
                Diagnostics := Diagnostics.AddError resp.Diagnostics "Client Error"
                  (sprintfErr "Unable to create environment, got error: " result.err) }, calls)
    | some false =>
      let data := { data with Id := { data.Id with Value := environment.Id } }
      let data := { data with Key := { data.Key with Value := environment.Key } }
      let data := { data with Name := { data.Name with Value := environment.Name } }
      let data := { data with
                      Description := { data.Description with Value := environment.Description } }
      let data := { data with Color := { data.Color with Value := environment.Color } }
      let data := { data with Typ := { data.Typ with Value := environment.Type_ } }
      let data := { data with ProjectId := { data.ProjectId with Value := environment.Project } }
      match environment.Settings with
      | none => none
      | some settings =>
        let data := { data with
                        Settings := { data.Settings with
                          AppIconURI := { data.Settings.AppIconURI with
                            Value := settings.AppIconURI } } }
        match environment.SdkKeys with
        | none => none
        | some sdkKeys =>
          let data := { data with SDKKeys := data.SDKKeys ++ sdkKeyConvert sdkKeys.Mobile }
          let data := { data with SDKKeys := data.SDKKeys ++ sdkKeyConvert sdkKeys.Server }
          let data := { data with SDKKeys := data.SDKKeys ++ sdkKeyConvert sdkKeys.Client }
          let written := tfsdkSet environmentResourceData.tfsdkFields
            environmentResourceType.GetSchema data resp.State
          some ({ State := written.1
                  Diagnostics := Diagnostics.Append resp.Diagnostics written.2 }, calls)

/-- Source `environmentResource.Read`. -/
def environmentResource.Read (api : EnvironmentsApi) (req : ReadResourceRequest)
    (resp : ResourceResponse) : Option (ResourceResponse × List ApiCall) :=
  let decoded := tfsdkGet environmentResourceData.tfsdkFields environmentResourceType.GetSchema
    {} req.State
  let data := decoded.data
  let diags := decoded.diags
  let resp := { resp with Diagnostics := Diagnostics.Append resp.Diagnostics diags }
  if Diagnostics.HasError resp.Diagnostics then
    some (resp, [])
  else
    let result := api.EnvironmentsControllerFindOne data.Key.Value data.ProjectId.Value
    let calls := [ApiCall.EnvironmentsControllerFindOne data.Key.Value data.ProjectId.Value]
    let environment := result.environment
    match clientFailed result.err result.httpResponse with
    | none => none
    | some true =>
      some ({ resp with
                Diagnostics := Diagnostics.AddError resp.Diagnostics "Client Error"
                  (sprintfErr "Unable to read environment, got error: " result.err) }, calls)
    | some false =>
      let data := { data with Id := { data.Id with Value := environment.Id } }
      let data := { data with Key := { data.Key with Value := environment.Key } }
      let data := { data with Name := { data.Name with Value := environment.Name } }
      let data := { data with
                      Description := { data.Description with Value := environment.Description } }
      let data := { data with Color := { data.Color with Value := environment.Color } }
      let data := { data with Typ := { data.Typ with Value := environment.Type_ } }
      let data := { data with ProjectId := { data.ProjectId with Value := environment.Project } }
      match environment.Settings with
      | none => none
      | some settings =>
        let data := { data with
                        Settings := { data.Settings with
                          AppIconURI := { data.Settings.AppIconURI with
                            Value := settings.AppIconURI } } }
        match environment.SdkKeys with
        | none => none
        | some sdkKeys =>
          let data := { data with SDKKeys := data.SDKKeys ++ sdkKeyConvert sdkKeys.Mobile }
          let data := { data with SDKKeys := data.SDKKeys ++ sdkKeyConvert sdkKeys.Server }
          let data := { data with SDKKeys := data.SDKKeys ++ sdkKeyConvert sdkKeys.Client }
          let written := tfsdkSet environmentResourceData.tfsdkFields
            environmentResourceType.GetSchema data resp.State
          some ({ State := written.1
                  Diagnostics := Diagnostics.Append resp.Diagnostics written.2 }, calls)

/-- Source `environmentResource.Update`. -/
def environmentResource.Update (api : EnvironmentsApi) (req : UpdateResourceRequest)
    (resp : ResourceResponse) : Option (ResourceResponse × List ApiCall) :=
  let decoded := tfsdkGet environmentResourceData.tfsdkFields environmentResourceType.GetSchema
    {} req.Plan
  let data := decoded.data
  let diags := decoded.diags
  let resp := { resp with Diagnostics := Diagnostics.Append resp.Diagnostics diags }
  if Diagnostics.HasError resp.Diagnostics then
    some (resp, [])
  else
    let body : UpdateEnvironmentDto :=
      { Name := data.Name.Value
        Key := data.Key.Value
        Description := data.Description.Value
        Color := data.Color.Value
        Type_ := data.Typ.Value
        Settings := data.Settings.toUpdateSDK }
    let result := api.EnvironmentsControllerUpdate body data.Key.Value data.ProjectId.Value
    let calls := [ApiCall.EnvironmentsControllerUpdate body data.Key.Value data.ProjectId.Value]
    let environment := result.environment
    match clientFailed result.err result.httpResponse with
    | none => none
    | some true =>
      some ({ resp with
                Diagnostics := Diagnostics.AddError resp.Diagnostics "Client Error"
                  (sprintfErr "Unable to update environment, got error: " result.err) }, calls)
    | some false =>
      let data := { data with Id := { data.Id with Value := environment.Id } }
      let data := { data with Key := { data.Key with Value := environment.Key } }
      let data := { data with Name := { data.Name with Value := environment.Name } }
      let data := { data with
                      Description := { data.Description with Value := environment.Description } }
      let data := { data with Color := { data.Color with Value := environment.Color } }
      let data := { data with Typ := { data.Typ with Value := environment.Type_ } }
      let data := { data with ProjectId := { data.ProjectId with Value := environment.Project } }
      match environment.Settings with
      | none => none
      | some settings =>
        let data := { data with
                        Settings := { data.Settings with
                          AppIconURI := { data.Settings.AppIconURI with
                            Value := settings.AppIconURI } } }
        match environment.SdkKeys with
        | none => none
        | some sdkKeys =>
          let data := { data with SDKKeys := data.SDKKeys ++ sdkKeyConvert sdkKeys.Mobile }
          let data := { data with SDKKeys := data.SDKKeys ++ sdkKeyConvert sdkKeys.Server }
          let data := { data with SDKKeys := data.SDKKeys ++ sdkKeyConvert sdkKeys.Client }
          let written := tfsdkSet environmentResourceData.tfsdkFields
            environmentResourceType.GetSchema data resp.State
          some ({ State := written.1
                  Diagnostics := Diagnostics.Append resp.Diagnostics written.2 }, calls)

/-- Source `environmentResource.Delete`. -/
def environmentResource.Delete (api : EnvironmentsApi) (req : DeleteResourceRequest)
    (resp : ResourceResponse) : Option (ResourceResponse × List ApiCall) :=
  let decoded := tfsdkGet environmentResourceData.tfsdkFields environmentResourceType.GetSchema
    {} req.State
  let data := decoded.data
  let diags := decoded.diags
  let resp := { resp with Diagnostics := Diagnostics.Append resp.Diagnostics diags }
  if Diagnostics.HasError resp.Diagnostics then
    some (resp, [])
  else
    let result := api.EnvironmentsControllerRemove data.Key.Value data.ProjectId.Value
    let calls := [ApiCall.EnvironmentsControllerRemove data.Key.Value data.ProjectId.Value]
    match clientFailed result.err result.httpResponse with
    | none => none
    | some true =>
      some ({ resp with
                Diagnostics := Diagnostics.AddError resp.Diagnostics "Client Error"
                  (sprintfErr "Unable to delete environment, got error: " result.err) }, calls)
    | some false =>
      some ({ resp with State := none }, calls)

/-- Source `environmentDataSource.Read`. -/
def environmentDataSource.Read (api : EnvironmentsApi) (req : ReadDataSourceRequest)
    (resp : DataSourceResponse) : Option (DataSourceResponse × List ApiCall) :=
  let decoded := tfsdkGet environmentDataSourceData.tfsdkFields
    environmentDataSourceType.GetSchema {} req.Config
  let data := decoded.data
  let diags := decoded.diags
  let resp := { resp with Diagnostics := Diagnostics.Append resp.Diagnostics diags }
  if Diagnostics.HasError resp.Diagnostics then
    some (resp, [])
  else
    let result := api.EnvironmentsControllerFindOne data.Key.Value data.ProjectKey.Value
    let calls := [ApiCall.EnvironmentsControllerFindOne data.Key.Value data.ProjectKey.Value]
    let environment := result.environment
    match clientFailed result.err result.httpResponse with
    | none => none
    | some true =>
      some ({ resp with
                Diagnostics := Diagnostics.AddError resp.Diagnostics "Client Error"
                  (sprintfErr "Unable to read environment, got error: " result.err) }, calls)
    | some false =>
      let data := { data with Id := { Value := environment.Id } }
      let data := { data with Key := { Value := environment.Key } }
      let data := { data with Name := { Value := environment.Name } }
      let data := { data with Description := { Value := environment.Description } }
      let data := { data with Color := { Value := environment.Color } }
      let data := { data with Typ := { Value := environment.Type_ } }
      let data := { data with ProjectId := { Value := environment.Project } }
      match environment.SdkKeys with
      | none => none
      | some sdkKeys =>
        let data := { data with SDKKeys := data.SDKKeys ++ sdkKeyConvert sdkKeys.Mobile }
        let data := { data with SDKKeys := data.SDKKeys ++ sdkKeyConvert sdkKeys.Server }
        let data := { data with SDKKeys := data.SDKKeys ++ sdkKeyConvert sdkKeys.Client }
        let written := tfsdkSet environmentDataSourceData.tfsdkFields
          environmentDataSourceType.GetSchema data resp.State
        some ({ State := written.1
                Diagnostics := Diagnostics.Append resp.Diagnostics written.2 }, calls)

/-! ## Named parts of the handlers, for stating their properties -/

/-- A successful call result: the environment, a 200 response and a nil error. -/
def EnvironmentResult.ok (environment : Environment) : EnvironmentResult :=
  { environment := environment, httpResponse := some { StatusCode := 200 }, err := none }

/-- A call result counts as failed when the error is non-nil or the response carries a
status code other than 200. -/
def failedCall (err : Option GoError) (httpResponse : Option HttpResponse) : Prop :=
  err ≠ none ∨ ∃ r, httpResponse = some r ∧ r.StatusCode ≠ 200

/-! ## Concrete inputs used to evaluate the handlers -/

/-- A management API whose environment endpoints all return one result and whose remove
endpoint returns another, whatever the arguments. -/
def mockApi (result : EnvironmentResult) (removed : RemoveResult) : EnvironmentsApi :=
  { EnvironmentsControllerCreate := fun _ _ => result
    EnvironmentsControllerFindOne := fun _ _ => result
    EnvironmentsControllerUpdate := fun _ _ _ => result
    EnvironmentsControllerRemove := fun _ _ => removed }

/-- A remove result with status 200 and a nil error. -/
def removedOk : RemoveResult :=
  { httpResponse := some { StatusCode := 200 }, err := none }

/-- An environment as the API returns it, with keys on every platform. -/
def prodEnvironment : Environment :=
  { Id := "env-1", Key := "prod", Name := "Production", Project := "proj-1"
    Description := "live", Color := "#ff0000", Type_ := "production"
    SdkKeys := some { Mobile := [{ Key := "m1" }]
                      Server := [{ Key := "s1" }, { Key := "s2" }]
                      Client := [{ Key := "c1" }] }
    Settings := some { AppIconURI := "icon.png" } }

/-- A resource record whose values all differ from `prodEnvironment`; its computed fields
are empty. -/
def devRecord : environmentResourceData :=
  { Key := { Value := "dev" }, Name := { Value := "Development" }
    Description := { Value := "scratch" }, Color := { Value := "#00ff00" }
    Typ := { Value := "development" }, ProjectId := { Value := "my-project" }
    Settings := { AppIconURI := { Value := "dev.png" } } }

/-- A data-source query. -/
def prodQuery : environmentDataSourceData :=
  { Key := { Value := "prod" }, ProjectKey := { Value := "my-project" } }

/-- A response holding no state and no diagnostics. -/
def noState : ResourceResponse :=
  { State := none, Diagnostics := [] }

/-- A data-source response holding no state and no diagnostics. -/
def noResult : DataSourceResponse :=
  { State := none, Diagnostics := [] }

/-- A resource record holding the string values of `prodEnvironment` and no SDK keys. -/
def prodRecord : environmentResourceData :=
  { Id := { Value := "env-1" }, Key := { Value := "prod" }, Name := { Value := "Production" }
    Description := { Value := "live" }, Color := { Value := "#ff0000" }
    Typ := { Value := "production" }, ProjectId := { Value := "proj-1" }
    Settings := { AppIconURI := { Value := "icon.png" } } }

/-- A remove result with status 404 and a nil error. -/
def removedNotFound : RemoveResult :=
  { httpResponse := some { StatusCode := 404 }, err := none }

/-- A call result with status 404 and a nil error. -/
def notFound : EnvironmentResult :=
  { environment := {}, httpResponse := some { StatusCode := 404 }, err := none }

/-- A call result with a transport error and no response. -/
def transportError : EnvironmentResult :=
  { environment := {}, httpResponse := none, err := some { Error := "connection refused" } }

/-- A response holding `prodRecord` as the prior state and no diagnostics. -/
def prodState : ResourceResponse :=
  { State := some prodRecord, Diagnostics := [] }

/-- The names of the attributes of a schema that carry a given plan modifier. -/
def Schema.attributesWith (s : Schema) (m : PlanModifier) : List String :=
  (s.Attributes.filter (fun p => decide (m ∈ p.2.PlanModifiers))).map Prod.fst

/-! ## Basic facts -/

theorem sdkKeyConvert_acc (keys : List ApiKey) (acc : List String) :
    keys.foldl (fun sdkKeys sdkKey => sdkKeys ++ [sdkKey.Key]) acc
      = acc ++ keys.map ApiKey.Key := by
  induction keys generalizing acc with
  | nil => simp
  | cons k ks ih => simp [ih]

theorem sdkKeyConvert_eq_map (keys : List ApiKey) :
    sdkKeyConvert keys = keys.map ApiKey.Key := by
  simp [sdkKeyConvert, sdkKeyConvert_acc]

theorem Diagnostics.Append_nil (diags : Diagnostics) : Diagnostics.Append diags [] = diags := by
  simp [Diagnostics.Append]

theorem Diagnostics.not_mem_of_not_HasError (diags : Diagnostics) (summary detail : String)
    (h : Diagnostics.HasError diags = false) :
    ({ Severity := Severity.Error, Summary := summary, Detail := detail } : Diagnostic) ∉ diags := by
  intro hm
  have : Diagnostics.HasError diags = true := by
    simp only [Diagnostics.HasError, List.any_eq_true]
    exact ⟨_, hm, by simp⟩
  rw [h] at this
  exact Bool.noConfusion this

theorem Diagnostics.AddError_of_not_HasError (diags : Diagnostics) (summary detail : String)
    (h : Diagnostics.HasError diags = false) :
    Diagnostics.AddError diags summary detail
      = diags ++ [{ Severity := Severity.Error, Summary := summary, Detail := detail }] := by
  have hm := Diagnostics.not_mem_of_not_HasError diags summary detail h
  simp [Diagnostics.AddError, Diagnostics.Append, hm]

theorem clientFailed_of_failedCall (err : Option GoError) (httpResponse : Option HttpResponse)
    (h : failedCall err httpResponse) : clientFailed err httpResponse = some true := by
  cases err with
  | some e => simp [clientFailed]
  | none =>
    rcases h with h | ⟨r, hr, hne⟩
    · exact absurd rfl h
    · subst hr
      simp [clientFailed, hne]

/-! ## Conversion between values and records -/

theorem resource_record_not_convertible :
    recordConvertible environmentResourceData.tfsdkFields environmentResourceType.GetSchema
      = false := by
  decide

theorem dataSource_record_convertible :
    recordConvertible environmentDataSourceData.tfsdkFields environmentDataSourceType.GetSchema
      = true := by
  decide

theorem tfsdkGet_resource (zero : environmentResourceData)
    (value : Decoded environmentResourceData) :
    tfsdkGet environmentResourceData.tfsdkFields environmentResourceType.GetSchema zero value
      = { data := zero, diags := [valueConversionError] } := by
  simp [tfsdkGet, resource_record_not_convertible]

theorem tfsdkGet_dataSource (zero : environmentDataSourceData)
    (value : Decoded environmentDataSourceData) :
    tfsdkGet environmentDataSourceData.tfsdkFields environmentDataSourceType.GetSchema zero value
      = value := by
  simp [tfsdkGet, dataSource_record_convertible]

theorem tfsdkSet_dataSource (data : environmentDataSourceData)
    (state : Option environmentDataSourceData) :
    tfsdkSet environmentDataSourceData.tfsdkFields environmentDataSourceType.GetSchema data state
      = (some data, []) := by
  simp [tfsdkSet, dataSource_record_convertible]

theorem Diagnostics.Append_conversionError_mem (diags : Diagnostics) :
    valueConversionError ∈ Diagnostics.Append diags [valueConversionError] := by
  by_cases h : valueConversionError ∈ diags
  · simp [Diagnostics.Append, h]
  · simp [Diagnostics.Append, h]

theorem Diagnostics.HasError_Append_conversionError (diags : Diagnostics) :
    Diagnostics.HasError (Diagnostics.Append diags [valueConversionError]) = true := by
  simp only [Diagnostics.HasError, List.any_eq_true]
  exact ⟨_, Diagnostics.Append_conversionError_mem diags, by decide⟩

/-! ## What each handler returns -/

/-- Create returns at the decode guard, whatever the API and the request: no call, the state
as it was handed in, the conversion error among the diagnostics. -/
theorem resource_Create_returns_at_decode (api : EnvironmentsApi) (req : CreateResourceRequest)
    (resp : ResourceResponse) :
    environmentResource.Create api req resp = some (
      { State := resp.State
        Diagnostics := Diagnostics.Append resp.Diagnostics [valueConversionError] }, []) := by
  simp [environmentResource.Create, tfsdkGet_resource,
    Diagnostics.HasError_Append_conversionError]

/-- Read returns at the decode guard, whatever the API and the request. -/
theorem resource_Read_returns_at_decode (api : EnvironmentsApi) (req : ReadResourceRequest)
    (resp : ResourceResponse) :
    environmentResource.Read api req resp = some (
      { State := resp.State
        Diagnostics := Diagnostics.Append resp.Diagnostics [valueConversionError] }, []) := by
  simp [environmentResource.Read, tfsdkGet_resource,
    Diagnostics.HasError_Append_conversionError]

/-- Update returns at the decode guard, whatever the API and the request. -/
theorem resource_Update_returns_at_decode (api : EnvironmentsApi) (req : UpdateResourceRequest)
    (resp : ResourceResponse) :
    environmentResource.Update api req resp = some (
      { State := resp.State
        Diagnostics := Diagnostics.Append resp.Diagnostics [valueConversionError] }, []) := by
  simp [environmentResource.Update, tfsdkGet_resource,
    Diagnostics.HasError_Append_conversionError]

/-- Delete returns at the decode guard, whatever the API and the request. -/
theorem resource_Delete_returns_at_decode (api : EnvironmentsApi) (req : DeleteResourceRequest)
    (resp : ResourceResponse) :
    environmentResource.Delete api req resp = some (
      { State := resp.State
        Diagnostics := Diagnostics.Append resp.Diagnostics [valueConversionError] }, []) := by
  simp [environmentResource.Delete, tfsdkGet_resource,
    Diagnostics.HasError_Append_conversionError]

/-- The data-source Read after a successful call whose environment carries SDK keys: every
string field but `ProjectKey` is replaced whole, and the key strings are appended to the
decoded `SDKKeys`. -/
theorem dataSource_Read_ok (api : EnvironmentsApi) (req : ReadDataSourceRequest)
    (resp : DataSourceResponse) (environment : Environment) (sdkKeys : EnvironmentSdkKeys)
    (hdec : Diagnostics.HasError (Diagnostics.Append resp.Diagnostics req.Config.diags) = false)
    (hcall : api.EnvironmentsControllerFindOne req.Config.data.Key.Value
      req.Config.data.ProjectKey.Value = EnvironmentResult.ok environment)
    (hkeys : environment.SdkKeys = some sdkKeys) :
    environmentDataSource.Read api req resp = some (
      { State := some
          { Id := { Value := environment.Id }
            Key := { Value := environment.Key }
            Name := { Value := environment.Name }
            Description := { Value := environment.Description }
            Color := { Value := environment.Color }
            Typ := { Value := environment.Type_ }
            ProjectId := { Value := environment.Project }
            ProjectKey := req.Config.data.ProjectKey
            SDKKeys := req.Config.data.SDKKeys ++ sdkKeys.Mobile.map ApiKey.Key
              ++ sdkKeys.Server.map ApiKey.Key
              ++ sdkKeys.Client.map ApiKey.Key }
        Diagnostics := Diagnostics.Append resp.Diagnostics req.Config.diags },
      [ApiCall.EnvironmentsControllerFindOne req.Config.data.Key.Value
        req.Config.data.ProjectKey.Value]) := by
  simp [environmentDataSource.Read, tfsdkGet_dataSource, tfsdkSet_dataSource, hdec, hcall, hkeys,
    EnvironmentResult.ok, clientFailed, sdkKeyConvert_eq_map, Diagnostics.Append_nil]

/-- The data-source Read after a successful call whose environment carries no SDK keys
object: the handler dereferences the nil pointer. -/
theorem dataSource_Read_nil_keys (api : EnvironmentsApi) (req : ReadDataSourceRequest)
    (resp : DataSourceResponse) (environment : Environment)
    (hdec : Diagnostics.HasError (Diagnostics.Append resp.Diagnostics req.Config.diags) = false)
    (hcall : api.EnvironmentsControllerFindOne req.Config.data.Key.Value
      req.Config.data.ProjectKey.Value = EnvironmentResult.ok environment)
    (hkeys : environment.SdkKeys = none) :
    environmentDataSource.Read api req resp = none := by
  simp [environmentDataSource.Read, tfsdkGet_dataSource, hdec, hcall, hkeys,
    EnvironmentResult.ok, clientFailed]

/-- The data-source Read after a failed call. -/
theorem dataSource_Read_failed (api : EnvironmentsApi) (req : ReadDataSourceRequest)
    (resp : DataSourceResponse)
    (hdec : Diagnostics.HasError (Diagnostics.Append resp.Diagnostics req.Config.diags) = false)
    (hcall : clientFailed
      (api.EnvironmentsControllerFindOne req.Config.data.Key.Value
        req.Config.data.ProjectKey.Value).err
      (api.EnvironmentsControllerFindOne req.Config.data.Key.Value
        req.Config.data.ProjectKey.Value).httpResponse = some true) :
    environmentDataSource.Read api req resp = some (
      { State := resp.State
        Diagnostics := Diagnostics.Append resp.Diagnostics req.Config.diags ++
          [{ Severity := Severity.Error, Summary := "Client Error"
             Detail := sprintfErr "Unable to read environment, got error: "
               (api.EnvironmentsControllerFindOne req.Config.data.Key.Value
                 req.Config.data.ProjectKey.Value).err }] },
      [ApiCall.EnvironmentsControllerFindOne req.Config.data.Key.Value
        req.Config.data.ProjectKey.Value]) := by
  simp [environmentDataSource.Read, tfsdkGet_dataSource, hdec, hcall,
    Diagnostics.AddError_of_not_HasError]

/-! ## C1: the flattened SDK keys -/

/-- C1: with a create call that would answer 200 with mobile m1, server s1 s2 and client c1,
Create returns at the decode guard: it issues no call and stores no state, so no `sdk_keys`
list is produced. The data-source Read, against the same API, stores m1, s1, s2, c1. -/
theorem Create_stores_no_sdk_keys :
    environmentResource.Create (mockApi (EnvironmentResult.ok prodEnvironment) removedOk)
        { Config := { data := devRecord, diags := [] } } noState
      = some ({ State := none, Diagnostics := [valueConversionError] }, []) ∧
    (environmentDataSource.Read (mockApi (EnvironmentResult.ok prodEnvironment) removedOk)
        { Config := { data := prodQuery, diags := [] } } noResult).map
        (fun out => out.1.State.map (fun st => st.SDKKeys))
      = some (some ["m1", "s1", "s2", "c1"]) := by
  refine ⟨by rfl, by rfl⟩

/-! ## C2, C3: Read leaves the state as it was -/

/-- C2: against an API that would answer every find-one with the same environment and
status 200, Read from two different prior states issues no call and leaves each prior state in
place: the two states after Read differ, and neither holds the values of the response. -/
theorem Read_leaves_state_unrefreshed :
    environmentResource.Read (mockApi (EnvironmentResult.ok prodEnvironment) removedOk)
        { State := { data := devRecord, diags := [] } }
        { State := some devRecord, Diagnostics := [] }
      = some ({ State := some devRecord, Diagnostics := [valueConversionError] }, []) ∧
    environmentResource.Read (mockApi (EnvironmentResult.ok prodEnvironment) removedOk)
        { State := { data := { Id := { Value := "env-1" } }, diags := [] } }
        { State := some { Id := { Value := "env-1" } }, Diagnostics := [] }
      = some ({ State := some { Id := { Value := "env-1" } }
                Diagnostics := [valueConversionError] }, []) ∧
    devRecord ≠ { Id := { Value := "env-1" } } ∧
    devRecord.Name.Value ≠ prodEnvironment.Name := by
  refine ⟨by rfl, by rfl, by decide, by decide⟩

/-- C3: for every API and every state, a Read followed by a Read of the state the first one
left yields the same state: each Read returns and leaves the state as it was handed in. -/
theorem Read_twice_same_state (api : EnvironmentsApi) (req1 req2 : ReadResourceRequest)
    (resp : ResourceResponse) (diags2 : Diagnostics) :
    ∃ out1 out2, environmentResource.Read api req1 resp = some out1 ∧
      environmentResource.Read api req2 { State := out1.1.State, Diagnostics := diags2 }
        = some out2 ∧
      out2.1.State = out1.1.State ∧ out1.1.State = resp.State :=
  ⟨_, _, resource_Read_returns_at_decode api req1 resp,
    resource_Read_returns_at_decode api req2 _, rfl, rfl⟩

/-! ## C4: Create and the echoed values -/

/-- C4: with a config sending key dev and a create call that would answer 200 echoing key
prod, Create issues no call and stores no state; its only diagnostic is the conversion
error. -/
theorem Create_stores_no_state :
    ∃ out, environmentResource.Create (mockApi (EnvironmentResult.ok prodEnvironment) removedOk)
        { Config := { data := devRecord, diags := [] } } noState = some out ∧
      out.1.State = none ∧ out.2 = [] ∧
      out.1.Diagnostics.map (fun d => (d.Severity, d.Summary))
        = [(Severity.Error, "Value Conversion Error")] :=
  ⟨_, resource_Create_returns_at_decode _ _ _, rfl, rfl, by rfl⟩

/-! ## C5: a failed call writes no state -/

/-- C5: Create, Read and Update return with the state they were handed (none for Create, the
prior state for Read and Update) and with an error among the diagnostics, whatever the API
answers; the data-source Read, when its call returns a non-nil error or a status other than
200, returns with the state it was handed and with one error diagnostic added. -/
theorem failed_call_leaves_state (api : EnvironmentsApi)
    (creq : CreateResourceRequest) (cresp : ResourceResponse)
    (rreq : ReadResourceRequest) (rresp : ResourceResponse)
    (ureq : UpdateResourceRequest) (uresp : ResourceResponse)
    (dreq : ReadDataSourceRequest) (dresp : DataSourceResponse)
    (hddec : Diagnostics.HasError (Diagnostics.Append dresp.Diagnostics dreq.Config.diags) = false)
    (hdfail : failedCall
      (api.EnvironmentsControllerFindOne dreq.Config.data.Key.Value
        dreq.Config.data.ProjectKey.Value).err
      (api.EnvironmentsControllerFindOne dreq.Config.data.Key.Value
        dreq.Config.data.ProjectKey.Value).httpResponse) :
    (∃ out, environmentResource.Create api creq cresp = some out ∧
      out.1.State = cresp.State ∧ Diagnostics.HasError out.1.Diagnostics = true) ∧
    (∃ out, environmentResource.Read api rreq rresp = some out ∧
      out.1.State = rresp.State ∧ Diagnostics.HasError out.1.Diagnostics = true) ∧
    (∃ out, environmentResource.Update api ureq uresp = some out ∧
      out.1.State = uresp.State ∧ Diagnostics.HasError out.1.Diagnostics = true) ∧
    (∃ out d, environmentDataSource.Read api dreq dresp = some out ∧
      out.1.State = dresp.State ∧ d.Severity = Severity.Error ∧
      out.1.Diagnostics = Diagnostics.Append dresp.Diagnostics dreq.Config.diags ++ [d]) :=
  ⟨⟨_, resource_Create_returns_at_decode api creq cresp, rfl,
      Diagnostics.HasError_Append_conversionError _⟩,
    ⟨_, resource_Read_returns_at_decode api rreq rresp, rfl,
      Diagnostics.HasError_Append_conversionError _⟩,
    ⟨_, resource_Update_returns_at_decode api ureq uresp, rfl,
      Diagnostics.HasError_Append_conversionError _⟩,
    ⟨_, _, dataSource_Read_failed api dreq dresp hddec
      (clientFailed_of_failedCall _ _ hdfail), rfl, rfl, rfl⟩⟩

/-- C5 at a transport error without a response: Create leaves no state, Read and Update leave
the prior state `prodRecord`, the data-source Read leaves no result. -/
theorem failed_call_leaves_state_witness :
    (∃ out, environmentResource.Create (mockApi transportError removedNotFound)
        { Config := { data := devRecord, diags := [] } } noState = some out ∧
      out.1.State = none ∧ Diagnostics.HasError out.1.Diagnostics = true) ∧
    (∃ out, environmentResource.Read (mockApi transportError removedNotFound)
        { State := { data := prodRecord, diags := [] } } prodState = some out ∧
      out.1.State = some prodRecord ∧ Diagnostics.HasError out.1.Diagnostics = true) ∧
    (∃ out, environmentResource.Update (mockApi transportError removedNotFound)
        { Plan := { data := devRecord, diags := [] }
          State := { data := prodRecord, diags := [] } } prodState = some out ∧
      out.1.State = some prodRecord ∧ Diagnostics.HasError out.1.Diagnostics = true) ∧
    (∃ out d, environmentDataSource.Read (mockApi transportError removedNotFound)
        { Config := { data := prodQuery, diags := [] } } noResult = some out ∧
      out.1.State = none ∧ d.Severity = Severity.Error ∧ out.1.Diagnostics = [] ++ [d]) :=
  failed_call_leaves_state (mockApi transportError removedNotFound)
    { Config := { data := devRecord, diags := [] } } noState
    { State := { data := prodRecord, diags := [] } } prodState
    { Plan := { data := devRecord, diags := [] }
      State := { data := prodRecord, diags := [] } } prodState
    { Config := { data := prodQuery, diags := [] } } noResult
    rfl (Or.inl (by decide))

/-! ## C6: Delete -/

/-- C6: with `prodRecord` tracked and a remove call that would answer 200 with a nil error,
Delete issues no call at all and leaves the tracked state in place; its only diagnostic is the
conversion error. -/
theorem Delete_issues_no_call :
    environmentResource.Delete (mockApi (EnvironmentResult.ok prodEnvironment) removedOk)
        { State := { data := prodRecord, diags := [] } } prodState
      = some ({ State := some prodRecord, Diagnostics := [valueConversionError] }, []) ∧
    removedOk = { httpResponse := some { StatusCode := 200 }, err := none } := by
  refine ⟨by rfl, by rfl⟩

/-! ## C7: the check on the call result -/

/-- C7: the resource Read never reaches its check. With a find-one call that would answer 404
the diagnostic it leaves is titled "Value Conversion Error", not "Client Error", and with a
call that would answer 200 it leaves the same diagnostic; in both cases no call is issued.
The data-source Read leaves one "Client Error" diagnostic for the 404, one for a transport
error without a response, and none for the 200. -/
theorem resource_Read_check_not_reached :
    environmentResource.Read (mockApi notFound removedNotFound)
        { State := { data := prodRecord, diags := [] } } prodState
      = some ({ State := some prodRecord
                Diagnostics := [{ Severity := Severity.Error
                                  Summary := "Value Conversion Error"
                                  Detail := valueConversionError.Detail }] }, []) ∧
    environmentResource.Read (mockApi (EnvironmentResult.ok prodEnvironment) removedOk)
        { State := { data := prodRecord, diags := [] } } prodState
      = some ({ State := some prodRecord
                Diagnostics := [{ Severity := Severity.Error
                                  Summary := "Value Conversion Error"
                                  Detail := valueConversionError.Detail }] }, []) ∧
    environmentDataSource.Read (mockApi notFound removedNotFound)
        { Config := { data := prodQuery, diags := [] } } noResult
      = some ({ State := none
                Diagnostics := [{ Severity := Severity.Error, Summary := "Client Error"
                                  Detail :=
                                    "Unable to read environment, got error: %!s(<nil>)" }] },
          [ApiCall.EnvironmentsControllerFindOne "prod" "my-project"]) ∧
    environmentDataSource.Read (mockApi transportError removedNotFound)
        { Config := { data := prodQuery, diags := [] } } noResult
      = some ({ State := none
                Diagnostics := [{ Severity := Severity.Error, Summary := "Client Error"
                                  Detail :=
                                    "Unable to read environment, got error: connection refused" }] },
          [ApiCall.EnvironmentsControllerFindOne "prod" "my-project"]) ∧
    (environmentDataSource.Read (mockApi (EnvironmentResult.ok prodEnvironment) removedOk)
        { Config := { data := prodQuery, diags := [] } } noResult).map
        (fun out => out.1.Diagnostics)
      = some [] := by
  refine ⟨by rfl, by rfl, by rfl, by rfl, by rfl⟩

/-! ## C8: plan modifiers of the resource schema -/

/-- C8 as stated fails: the `key` attribute of the resource schema is not marked
requires-replace. -/
theorem resource_key_not_requires_replace :
    Schema.requiresReplace environmentResourceType.GetSchema "key" = false := by
  rfl

/-- C8 amended: in the resource schema `key` is a required string attribute without any plan
modifier, no attribute is marked requires-replace, and the only plan modifier is
use-state-for-unknown on `id`. -/
theorem resource_schema_plan_modifiers :
    Schema.attribute environmentResourceType.GetSchema "key"
      = some { MarkdownDescription := "Environment Key", Required := true
               Typ := some AttrType.StringType, PlanModifiers := [] } ∧
    Schema.attributesWith environmentResourceType.GetSchema PlanModifier.RequiresReplace = [] ∧
    Schema.attributesWith environmentResourceType.GetSchema PlanModifier.UseStateForUnknown
      = ["id"] := by
  refine ⟨by rfl, by rfl, by rfl⟩

/-! ## C9: the call Update issues -/

/-- C9: with `prodRecord` in state, a plan that renames the environment and keeps key prod,
and an update call that would answer 200, Update issues no call at all and leaves the prior
state in place; its only diagnostic is the conversion error. -/
theorem Update_issues_no_call :
    environmentResource.Update (mockApi (EnvironmentResult.ok prodEnvironment) removedOk)
        { Plan := { data := { prodRecord with Name := { Value := "Live" } }, diags := [] }
          State := { data := prodRecord, diags := [] } } prodState
      = some ({ State := some prodRecord, Diagnostics := [valueConversionError] }, []) ∧
    prodRecord.Key.Value = "prod" := by
  refine ⟨by rfl, by rfl⟩

/-! ## C10: attribute names of the two schemas -/

/-- C11: the record and the schema of the environment resource do not agree. The tag
`settings` names no attribute and the attribute `appiconuri` is named by no tag; the field
tagged `sdkKeys` is a `[]string` while the attribute `sdkKeys` declares a list of nested
objects with `type` and `key`. The other seven tags name string attributes and are
`types.String` fields. The record and the schema of the data source agree throughout. -/
theorem resource_record_disagrees_with_schema :
    fieldWithTag environmentResourceData.tfsdkFields "settings"
      = some (GoFieldType.Struct ["appiconuri"]) ∧
    Schema.attribute environmentResourceType.GetSchema "settings" = none ∧
    (Schema.attribute environmentResourceType.GetSchema "appiconuri").map (fun a => a.Typ)
      = some (some AttrType.StringType) ∧
    fieldWithTag environmentResourceData.tfsdkFields "appiconuri" = none ∧
    fieldWithTag environmentResourceData.tfsdkFields "sdkKeys" = some GoFieldType.StringSlice ∧
    (Schema.attribute environmentResourceType.GetSchema "sdkKeys").map
        (fun a => (a.Typ, a.Attributes))
      = some (none, some [("type", { Typ := some AttrType.StringType, Computed := true }),
          ("key", { Typ := some AttrType.StringType, Computed := true })]) ∧
    (environmentResourceData.tfsdkFields.filter (fun f =>
        match Schema.attribute environmentResourceType.GetSchema f.1 with
        | some a => f.2.fits a
        | none => false)).map Prod.fst
      = ["id", "key", "name", "description", "color", "type", "project_id"] ∧
    ¬ (∀ n, n ∈ environmentResourceData.tfsdkFields.map Prod.fst
        ↔ n ∈ Schema.attributeNames environmentResourceType.GetSchema) ∧
    recordAgreesWithSchema environmentResourceData.tfsdkFields
      environmentResourceType.GetSchema = false ∧
    recordAgreesWithSchema environmentDataSourceData.tfsdkFields
      environmentDataSourceType.GetSchema = true := by
  refine ⟨by rfl, by rfl, by rfl, by rfl, by rfl, by rfl, by decide, ?_, by decide, by decide⟩
  intro h
  exact absurd ((h "settings").1 (by decide)) (by decide)

end provider
